import Mathlib

set_option maxRecDepth 100000
set_option maxHeartbeats 2000000

/-!
Verification of the KMSDRM video backend (SDL_kmsdrmopengles.c and
SDL_kmsdrmmouse.c).  The C code is shallowly embedded: machine integers
become `Nat` or `Int`, IEEE binary32 arithmetic is modelled exactly as
fixed-point numbers scaled by `2^31` under round-to-nearest-even, and the
calls into EGL, GBM and libdrm are modelled by environment records whose
fields give each external call its outcome.  `SDL_SetError` always returns
`-1`, which is how the C sources propagate failure.
-/

namespace KMSDRM

/-! ### Exact binary32 model

`alpha_premultiply_ARGB8888` computes `R = (float)A * ((float)R / 255)`.
Every value appearing there is `0` or lies in `[2^-8, 2^8)`, so every
intermediate binary32 float is a multiple of `2^-31` and is represented
exactly as a natural number of `2^-31` units (fixed point). -/

/-- Round `a / b` to the nearest integer, ties to even (`b > 0`). -/
def rne (a b : Nat) : Nat :=
  cond (Nat.blt b (2 * (a % b))) (a / b + 1)
    (cond (Nat.blt (2 * (a % b)) b) (a / b)
      (cond (Nat.beq (a / b % 2) 0) (a / b) (a / b + 1)))

/-- Find the binade: the power of two `g` with `g * 2^23 ≤ q < g * 2^24`
(for `2^23 ≤ q < 2^63`); the binary32 floats of that binade are exactly the
multiples of `g` in `2^-31` units. -/
def findGrid (q : Nat) : Nat :=
  cond (Nat.blt q 16777216) 1
    (cond (Nat.blt q 17592186044416)
      (cond (Nat.blt q 17179869184)
        (cond (Nat.blt q 536870912)
          (cond (Nat.blt q 134217728)
            (cond (Nat.blt q 67108864)
              (cond (Nat.blt q 33554432)
                2
                4
              )
              8
            )
            (cond (Nat.blt q 268435456)
              16
              32
            )
          )
          (cond (Nat.blt q 4294967296)
            (cond (Nat.blt q 2147483648)
              (cond (Nat.blt q 1073741824)
                64
                128
              )
              256
            )
            (cond (Nat.blt q 8589934592)
              512
              1024
            )
          )
        )
        (cond (Nat.blt q 549755813888)
          (cond (Nat.blt q 137438953472)
            (cond (Nat.blt q 68719476736)
              (cond (Nat.blt q 34359738368)
                2048
                4096
              )
              8192
            )
            (cond (Nat.blt q 274877906944)
              16384
              32768
            )
          )
          (cond (Nat.blt q 4398046511104)
            (cond (Nat.blt q 2199023255552)
              (cond (Nat.blt q 1099511627776)
                65536
                131072
              )
              262144
            )
            (cond (Nat.blt q 8796093022208)
              524288
              1048576
            )
          )
        )
      )
      (cond (Nat.blt q 18014398509481984)
        (cond (Nat.blt q 562949953421312)
          (cond (Nat.blt q 140737488355328)
            (cond (Nat.blt q 70368744177664)
              (cond (Nat.blt q 35184372088832)
                2097152
                4194304
              )
              8388608
            )
            (cond (Nat.blt q 281474976710656)
              16777216
              33554432
            )
          )
          (cond (Nat.blt q 4503599627370496)
            (cond (Nat.blt q 2251799813685248)
              (cond (Nat.blt q 1125899906842624)
                67108864
                134217728
              )
              268435456
            )
            (cond (Nat.blt q 9007199254740992)
              536870912
              1073741824
            )
          )
        )
        (cond (Nat.blt q 576460752303423488)
          (cond (Nat.blt q 144115188075855872)
            (cond (Nat.blt q 72057594037927936)
              (cond (Nat.blt q 36028797018963968)
                2147483648
                4294967296
              )
              8589934592
            )
            (cond (Nat.blt q 288230376151711744)
              17179869184
              34359738368
            )
          )
          (cond (Nat.blt q 2305843009213693952)
            (cond (Nat.blt q 1152921504606846976)
              68719476736
              137438953472
            )
            (cond (Nat.blt q 4611686018427387904)
              274877906944
              549755813888
            )
          )
        )
      )
    )

/-- The C expression `(float)c / 255`: binary32 round-to-nearest-even of
`c / 255`, in `2^-31` units.  Faithful for `c ≤ 255`: the value is below
`2^0` and, for `c ≥ 1`, at least `2^-8`, far above the subnormal range. -/
def floatDiv255 (c : Nat) : Nat :=
  cond (Nat.beq c 0) 0
    (rne (c * 2147483648) (255 * findGrid (c * 2147483648 / 255))
      * findGrid (c * 2147483648 / 255))

/-- The C multiplication `(float)a * x` where `x` is a binary32 value in
`2^-31` units: the exact product `a * x` is already a multiple of `2^-31`
and is rounded to 24 significant bits.  Faithful when the product is `0` or
lies in `[2^-8, 2^8)`, the range arising in the premultiply. -/
def floatMulInt (a x : Nat) : Nat :=
  cond (Nat.beq (a * x) 0) 0
    (rne (a * x) (findGrid (a * x)) * findGrid (a * x))

/-- One colour channel of the premultiply: the C statement
`R = (float)A * ((float)R / 255);` followed by the truncating conversion
back to `uint32_t`.  `a` and `c` are the alpha and colour bytes. -/
def premulChannel (a c : Nat) : Nat :=
  floatMulInt a (floatDiv255 c) / 2147483648

/-- Embedding of `alpha_premultiply_ARGB8888` (SDL_kmsdrmmouse.c, lines
46-63): extract the A, R, G, B bytes of an ARGB8888 word, multiply each
colour byte by alpha in binary32, truncate, and recompose; alpha is
unchanged. -/
def alpha_premultiply_ARGB8888 (pixel : Nat) : Nat :=
  pixel / 2 ^ 24 % 256 * 2 ^ 24
    + premulChannel (pixel / 2 ^ 24 % 256) (pixel / 2 ^ 16 % 256) * 2 ^ 16
    + premulChannel (pixel / 2 ^ 24 % 256) (pixel / 2 ^ 8 % 256) * 2 ^ 8
    + premulChannel (pixel / 2 ^ 24 % 256) (pixel % 256)

/-- The rounding the spec ascribes to the channels: `round (a*c/255)` to
the nearest integer, written over naturals as `⌊a*c/255 + 1/2⌋`.  No
`a*c/255` is an exact half-integer (255 is odd), so no tie rule matters. -/
def roundSpec (a c : Nat) : Nat :=
  (2 * a * c + 255) / 510

/-- `checkRow a n` checks, for the alpha byte `a` and every colour byte
`c < n`, that the float32 premultiply equals the floored exact product. -/
def checkRow (a : Nat) : Nat → Bool
  | 0 => true
  | c + 1 => Nat.beq (premulChannel a c) (a * c / 255) && checkRow a c

/-- `checkRowsFrom lo n` checks the rows `lo, lo+1, ..., lo+n-1`.  The 256
rows are checked in 16 blocks of 16 to keep each reduction shallow. -/
def checkRowsFrom (lo : Nat) : Nat → Bool
  | 0 => true
  | k + 1 => checkRow (lo + k) 256 && checkRowsFrom lo k

/-! ### The presentation paths (SDL_kmsdrmopengles.c)

`KMSDRM_GLES_SwapWindow` (async, lines 77-204) and
`KMSDRM_GLES_SwapWindowDB` (blocking double-buffer, lines 206-287) are
embedded as functions of an environment giving each external call its
outcome, and of the window state (`windata->bo`, `windata->next_bo`).
Buffer objects are named by naturals. -/

/-- Outcomes of the external calls a swap makes.  `lockedBo` is the result
of `KMSDRM_gbm_surface_lock_front_buffer` (`none` = NULL), `commitRet` the
return of `drm_atomic_commit`, the `...Ret` fields the returns of the
property helpers, `kmsInFenceFd` the fd duplicated from the GPU fence. -/
structure SwapEnv where
  eglSwapOk : Bool
  lockedBo : Option Nat
  fbOk : Bool
  planePropsRet : Int
  connPropRet : Int
  crtcActiveRet : Int
  outFencePropRet : Int
  inFencePropRet : Int
  kmsInFenceFd : Int
  commitRet : Int

/-- The window fields the swap reads and writes: `windata->bo` (current
front buffer, freed one frame in arrears) and `windata->next_bo`. -/
structure WindowState where
  bo : Option Nat
  nextBo : Option Nat

/-- Observable outcome of one swap call: the C return value, the window
state after the call, how many atomic commits and front-buffer locks were
issued, which buffer objects were released back to the allocator, and
whether any `SDL_SetError` / `SDL_EGL_SetError` was reported. -/
structure SwapOutcome where
  ret : Int
  bo : Option Nat
  nextBo : Option Nat
  commitCalls : Nat
  lockCalls : Nat
  released : List Nat
  errorReported : Bool

/-- Embedding of `KMSDRM_GLES_SwapWindow` (async path).  Control flow,
line by line: fence creation (no modelled effect); `eglSwapBuffers`
failure returns an error at once; lock of the next front buffer;
`KMSDRM_FBFromBO`; plane props; connector / CRTC props (failures only set
an error, without aborting); fence props (aborting); the non-blocking
atomic commit; only on commit success is the previous `bo` released and
`next_bo` recorded as current. -/
def KMSDRM_GLES_SwapWindow (env : SwapEnv) (st : WindowState) : SwapOutcome :=
  if !env.eglSwapOk then
    { ret := -1, bo := st.bo, nextBo := st.nextBo, commitCalls := 0,
      lockCalls := 0, released := [], errorReported := true }
  else
    match env.lockedBo with
    | none =>
      { ret := -1, bo := st.bo, nextBo := none, commitCalls := 0,
        lockCalls := 1, released := [], errorReported := true }
    | some nb =>
      if !env.fbOk then
        { ret := -1, bo := st.bo, nextBo := some nb, commitCalls := 0,
          lockCalls := 1, released := [], errorReported := true }
      else if env.planePropsRet ≠ 0 then
        { ret := -1, bo := st.bo, nextBo := some nb, commitCalls := 0,
          lockCalls := 1, released := [], errorReported := true }
      else
        let propErr := decide (env.connPropRet < 0)
          || decide (env.crtcActiveRet < 0)
        if env.kmsInFenceFd ≠ -1 ∧ env.outFencePropRet < 0 then
          { ret := -1, bo := st.bo, nextBo := some nb, commitCalls := 0,
            lockCalls := 1, released := [], errorReported := true }
        else if env.kmsInFenceFd ≠ -1 ∧ env.inFencePropRet < 0 then
          { ret := -1, bo := st.bo, nextBo := some nb, commitCalls := 0,
            lockCalls := 1, released := [], errorReported := true }
        else if env.commitRet ≠ 0 then
          { ret := -1, bo := st.bo, nextBo := some nb, commitCalls := 1,
            lockCalls := 1, released := [], errorReported := true }
        else
          { ret := 0, bo := some nb, nextBo := some nb, commitCalls := 1,
            lockCalls := 1, released := st.bo.toList,
            errorReported := propErr }

/-- Embedding of `KMSDRM_GLES_SwapWindowDB` (blocking double-buffer path).
Note the one structural difference from the async path: when
`eglSwapBuffers` fails the code calls `SDL_EGL_SetError` and `printf` but
does NOT return; it falls through to the lock and the commit.  There are
no fence props, and the commit is blocking. -/
def KMSDRM_GLES_SwapWindowDB (env : SwapEnv) (st : WindowState) :
    SwapOutcome :=
  let swapErr := !env.eglSwapOk
  match env.lockedBo with
  | none =>
    { ret := -1, bo := st.bo, nextBo := none, commitCalls := 0,
      lockCalls := 1, released := [], errorReported := true }
  | some nb =>
    if !env.fbOk then
      { ret := -1, bo := st.bo, nextBo := some nb, commitCalls := 0,
        lockCalls := 1, released := [], errorReported := true }
    else if env.planePropsRet ≠ 0 then
      { ret := -1, bo := st.bo, nextBo := some nb, commitCalls := 0,
        lockCalls := 1, released := [], errorReported := true }
    else
      let propErr := swapErr || decide (env.connPropRet < 0)
        || decide (env.crtcActiveRet < 0)
      if env.commitRet ≠ 0 then
        { ret := -1, bo := st.bo, nextBo := some nb, commitCalls := 1,
          lockCalls := 1, released := [], errorReported := true }
      else
        { ret := 0, bo := some nb, nextBo := some nb, commitCalls := 1,
          lockCalls := 1, released := st.bo.toList,
          errorReported := propErr }

/-! ### Swap interval (SDL_kmsdrmopengles.c, lines 45-57) -/

/-- The EGL state `KMSDRM_GLES_SetSwapInterval` touches: `none` when
`_this->egl_data` is NULL, otherwise the stored `egl_swapinterval`. -/
structure GLState where
  eglData : Option Int

/-- Embedding of `KMSDRM_GLES_SetSwapInterval`: error if EGL is not
initialized; store the interval and return 0 if it is 0 or 1; otherwise
error, leaving the stored interval unchanged. -/
def KMSDRM_GLES_SetSwapInterval (interval : Int) (st : GLState) :
    Int × GLState :=
  match st.eglData with
  | none => (-1, st)
  | some _ =>
    if interval = 0 ∨ interval = 1 then (0, { eglData := some interval })
    else (-1, st)

/-! ### Cursor creation (SDL_kmsdrmmouse.c, lines 75-197) -/

/-- Outcomes of the external calls `KMSDRM_CreateCursor` makes, in source
order.  `capW` / `capH` are the `drmGetCap` results (`none` = the ioctl
itself failed). -/
structure CursorEnv where
  formatSupported : Bool
  callocCursorOk : Bool
  callocCurdataOk : Bool
  capW : Option Nat
  capH : Option Nat
  boCreateOk : Bool
  boStride : Nat
  mallocOk : Bool
  mustLock : Bool
  lockOk : Bool
  boWriteOk : Bool

/-- Resource accounting and result of one `KMSDRM_CreateCursor` call.
`cursor` is the returned SDL cursor with its curdata `(w, h)` dimensions,
`none` when the C function returns NULL. -/
structure CursorOutcome where
  cursor : Option (Nat × Nat)
  errorReported : Bool
  cursorAllocated : Bool
  cursorFreed : Bool
  curdataAllocated : Bool
  curdataFreed : Bool
  boCreated : Bool
  boDestroyed : Bool
  bufferAllocated : Bool
  bufferFreed : Bool

/-- The `cleanup:` label of `KMSDRM_CreateCursor`: free the staging buffer
if allocated, free the cursor, destroy the BO if created, free the curdata,
return NULL. -/
def createCursorCleanup (errorReported boCreated bufferAllocated : Bool) :
    CursorOutcome :=
  { cursor := none, errorReported := errorReported,
    cursorAllocated := true, cursorFreed := true,
    curdataAllocated := true, curdataFreed := true,
    boCreated := boCreated, boDestroyed := boCreated,
    bufferAllocated := bufferAllocated, bufferFreed := bufferAllocated }

/-- Embedding of the control flow of `KMSDRM_CreateCursor`.  Source order:
format support check (printf, return NULL); calloc of the cursor; calloc
of the curdata; the two `drmGetCap` queries; the usable-size check, which
the C code writes as `usable_cursor_w == 0 || usable_cursor_w == 0`,
testing the width twice and the height never; BO creation; staging buffer
allocation of `bo_stride * h` bytes; optional surface lock; the copy loop
(modelled separately, see `copyDestOffset`); `gbm_bo_write`; and the
cleanup chains of each failure. -/
def KMSDRM_CreateCursor (env : CursorEnv) : CursorOutcome :=
  if !env.formatSupported then
    { cursor := none, errorReported := true,
      cursorAllocated := false, cursorFreed := false,
      curdataAllocated := false, curdataFreed := false,
      boCreated := false, boDestroyed := false,
      bufferAllocated := false, bufferFreed := false }
  else if !env.callocCursorOk then
    { cursor := none, errorReported := true,
      cursorAllocated := false, cursorFreed := false,
      curdataAllocated := false, curdataFreed := false,
      boCreated := false, boDestroyed := false,
      bufferAllocated := false, bufferFreed := false }
  else if !env.callocCurdataOk then
    { cursor := none, errorReported := true,
      cursorAllocated := true, cursorFreed := true,
      curdataAllocated := false, curdataFreed := false,
      boCreated := false, boDestroyed := false,
      bufferAllocated := false, bufferFreed := false }
  else
    match env.capW, env.capH with
    | none, _ => createCursorCleanup true false false
    | some _, none => createCursorCleanup true false false
    | some w, some h =>
      if w = 0 then createCursorCleanup true false false
      else if !env.boCreateOk then createCursorCleanup true false false
      else if !env.mallocOk then createCursorCleanup true true false
      else if env.mustLock && !env.lockOk then
        createCursorCleanup false true true
      else if !env.boWriteOk then createCursorCleanup true true true
      else
        { cursor := some (w, h), errorReported := false,
          cursorAllocated := true, cursorFreed := false,
          curdataAllocated := true, curdataFreed := false,
          boCreated := true, boDestroyed := false,
          bufferAllocated := true, bufferFreed := true }

/-- The staging-buffer destination of source pixel `(i, j)` in the copy
loop of `KMSDRM_CreateCursor` (line 162): the C code writes 4 bytes at
`buffer + (i * curdata->w) + j` on a `uint32_t` base pointer, i.e. at byte
offset `(i * cw + j) * 4` where `cw` is the cursor width — the BO stride
is not used. -/
def copyDestOffset (cw i j : Nat) : Nat :=
  (i * cw + j) * 4

/-- The source pixel index read by the copy loop (line 160):
`((uint32_t*)surface->pixels)[i * surface->w + j]`. -/
def copySrcIndex (sw i j : Nat) : Nat :=
  i * sw + j

/-- The destination the spec prescribes for pixel `(i, j)`: byte offset
`i * stride + j * 4`, `stride` being the native row stride of the BO. -/
def specDestOffset (stride i j : Nat) : Nat :=
  i * stride + j * 4

/-! ### Showing and hiding the cursor (SDL_kmsdrmmouse.c, lines 199-282) -/

/-- The per-cursor driver data `KMSDRM_CursorData`, as far as
`KMSDRM_ShowCursor` reads it: the owning CRTC (`0` = not displayed),
whether the BO exists, and the hotspot. -/
structure CursorData where
  crtcId : Nat
  hasBo : Bool
  hotX : Int
  hotY : Int

/-- The global state `KMSDRM_ShowCursor` consults: whether `SDL_GetMouse`
returns a mouse, the current cursor with its (possibly NULL) driver data,
and the CRTC id reached through `mouse->focus` → display → driverdata
(`none` when any link of that chain is NULL). -/
structure MouseState where
  mousePresent : Bool
  curCursor : Option (Option CursorData)
  focusDispCrtc : Option Nat

/-- Environment of a `KMSDRM_ShowCursor` call: the return value of the one
`drmModeSetCursor` / `drmModeSetCursor2` call it may make. -/
structure ShowEnv where
  setCursorRet : Int

/-- Observable outcome of `KMSDRM_ShowCursor`: the return value, the
current cursor after the call (its driver data may have been written), the
argument cursor after the call, and how many drm cursor calls were made. -/
structure ShowOutcome where
  ret : Int
  curCursorAfter : Option (Option CursorData)
  argAfter : Option (Option CursorData)
  drmCalls : Nat
  errorReported : Bool

/-- Embedding of `KMSDRM_ShowCursor cursor`.  `arg = none` embeds the C
call with `cursor == NULL` (hide); `arg = some d` embeds a show request
with driver data `d`.  Hide: if the current cursor is displayed
(`crtc_id != 0`), issue a drm hide on its CRTC and zero the field;
otherwise fall through and hide on the focused display CRTC if one is
known; otherwise report an error.  Show: errors when no display, no
driver data or no BO; otherwise one drm set-cursor call, recording the
display CRTC in the cursor on success. -/
def KMSDRM_ShowCursor (env : ShowEnv) (st : MouseState)
    (arg : Option (Option CursorData)) : ShowOutcome :=
  if !st.mousePresent then
    { ret := -1, curCursorAfter := st.curCursor, argAfter := arg,
      drmCalls := 0, errorReported := true }
  else
    match arg with
    | none =>
      match st.curCursor with
      | some (some cd) =>
        if cd.crtcId ≠ 0 then
          if env.setCursorRet ≠ 0 then
            { ret := env.setCursorRet, curCursorAfter := st.curCursor,
              argAfter := arg, drmCalls := 1, errorReported := true }
          else
            { ret := 0,
              curCursorAfter := some (some { cd with crtcId := 0 }),
              argAfter := arg, drmCalls := 1, errorReported := false }
        else
          hideGlobal env st arg
      | _ => hideGlobal env st arg
    | some cdOpt =>
      match st.focusDispCrtc with
      | none =>
        { ret := -1, curCursorAfter := st.curCursor, argAfter := arg,
          drmCalls := 0, errorReported := true }
      | some dc =>
        match cdOpt with
        | none =>
          { ret := -1, curCursorAfter := st.curCursor, argAfter := arg,
            drmCalls := 0, errorReported := true }
        | some cd =>
          if !cd.hasBo then
            { ret := -1, curCursorAfter := st.curCursor, argAfter := arg,
              drmCalls := 0, errorReported := true }
          else if env.setCursorRet ≠ 0 then
            { ret := env.setCursorRet, curCursorAfter := st.curCursor,
              argAfter := arg, drmCalls := 1, errorReported := true }
          else
            { ret := 0, curCursorAfter := st.curCursor,
              argAfter := some (some { cd with crtcId := dc }),
              drmCalls := 1, errorReported := false }
where
  /-- The fall-through branch of the hide path: hide whatever cursor the
  focused display shows, if that display and its CRTC are known. -/
  hideGlobal (env : ShowEnv) (st : MouseState)
      (arg : Option (Option CursorData)) : ShowOutcome :=
    match st.focusDispCrtc with
    | some dc =>
      if dc ≠ 0 then
        if env.setCursorRet ≠ 0 then
          { ret := env.setCursorRet, curCursorAfter := st.curCursor,
            argAfter := arg, drmCalls := 1, errorReported := true }
        else
          { ret := 0, curCursorAfter := st.curCursor, argAfter := arg,
            drmCalls := 1, errorReported := false }
      else
        { ret := -1, curCursorAfter := st.curCursor, argAfter := arg,
          drmCalls := 0, errorReported := true }
    | none =>
      { ret := -1, curCursorAfter := st.curCursor, argAfter := arg,
        drmCalls := 0, errorReported := true }

/-! ### Warping the pointer (SDL_kmsdrmmouse.c, lines 311-353) -/

/-- State read and written by the warp functions: the mouse, its current
cursor driver data, and the tracked logical pointer position. -/
structure WarpState where
  mousePresent : Bool
  curCursor : Option (Option CursorData)
  pos : Int × Int

/-- Environment of a warp call: the return of `drmModeMoveCursor`. -/
structure WarpEnv where
  moveRet : Int

/-- Outcome of `KMSDRM_WarpMouseGlobal`: C return value, state after the
call, number of drm move-cursor calls. -/
structure WarpOutcome where
  ret : Int
  state : WarpState
  moveCalls : Nat

/-- Modelled from the spec: `SDL_SendMouseMotion` (SDL core, not under
src/) updates the tracked logical pointer position to the given absolute
coordinates.  The spec: WarpGlobal updates the tracked logical pointer
position. -/
def SDL_SendMouseMotion (x y : Int) (st : WarpState) : WarpState :=
  { st with pos := (x, y) }

/-- Embedding of `KMSDRM_WarpMouseGlobal`: only when a mouse exists with a
current cursor carrying driver data is `SDL_SendMouseMotion` called; then,
if the cursor BO exists and the cursor is shown (`crtc_id != 0`), one drm
move is issued and its status returned; every other branch returns an
error. -/
def KMSDRM_WarpMouseGlobal (env : WarpEnv) (x y : Int) (st : WarpState) :
    WarpOutcome :=
  match st.mousePresent, st.curCursor with
  | true, some (some cd) =>
    let st2 := SDL_SendMouseMotion x y st
    if cd.hasBo then
      if cd.crtcId ≠ 0 then
        { ret := env.moveRet, state := st2, moveCalls := 1 }
      else
        { ret := -1, state := st2, moveCalls := 0 }
    else
      { ret := -1, state := st2, moveCalls := 0 }
  | _, _ => { ret := -1, state := st, moveCalls := 0 }

/-- Embedding of `KMSDRM_WarpMouse window x y`: the C function ignores the
window and calls `KMSDRM_WarpMouseGlobal(x, y)`, discarding its return
value (it is void); its observable effect is the state and the drm calls. -/
def KMSDRM_WarpMouse (window : Nat) (env : WarpEnv) (x y : Int)
    (st : WarpState) : WarpState × Nat :=
  ((KMSDRM_WarpMouseGlobal env x y st).state,
    (KMSDRM_WarpMouseGlobal env x y st).moveCalls)

end KMSDRM

namespace KMSDRM

/-! ### Sample inputs used by witnesses and counterexamples -/

def sampleEnvCommitFail : SwapEnv :=
  { eglSwapOk := true, lockedBo := some 2, fbOk := true, planePropsRet := 0,
    connPropRet := 0, crtcActiveRet := 0, outFencePropRet := 0,
    inFencePropRet := 0, kmsInFenceFd := 3, commitRet := 1 }

def sampleEnvOk : SwapEnv :=
  { eglSwapOk := true, lockedBo := some 2, fbOk := true, planePropsRet := 0,
    connPropRet := 0, crtcActiveRet := 0, outFencePropRet := 0,
    inFencePropRet := 0, kmsInFenceFd := 3, commitRet := 0 }

def sampleEnvEglFail : SwapEnv :=
  { eglSwapOk := false, lockedBo := some 2, fbOk := true, planePropsRet := 0,
    connPropRet := 0, crtcActiveRet := 0, outFencePropRet := 0,
    inFencePropRet := 0, kmsInFenceFd := -1, commitRet := 0 }

def sampleWin : WindowState := { bo := some 1, nextBo := some 1 }

def sampleCursorEnvH0 : CursorEnv :=
  { formatSupported := true, callocCursorOk := true, callocCurdataOk := true,
    capW := some 64, capH := some 0, boCreateOk := true, boStride := 256,
    mallocOk := true, mustLock := false, lockOk := true, boWriteOk := true }

def sampleHiddenCursor : CursorData :=
  { crtcId := 0, hasBo := true, hotX := 0, hotY := 0 }

def sampleHiddenNoDisplay : MouseState :=
  { mousePresent := true, curCursor := some (some sampleHiddenCursor),
    focusDispCrtc := none }

def sampleHiddenWithDisplay : MouseState :=
  { mousePresent := true, curCursor := some (some sampleHiddenCursor),
    focusDispCrtc := some 7 }

def sampleWarpNoCursor : WarpState :=
  { mousePresent := true, curCursor := none, pos := (0, 0) }

def sampleWarpShown : WarpState :=
  { mousePresent := true,
    curCursor := some (some { crtcId := 9, hasBo := true, hotX := 0, hotY := 0 }),
    pos := (0, 0) }

/-! ### Exhaustive check of the premultiply channels

The 65536 byte pairs are verified in 16 blocks of 16 rows of 256
kernel-checked evaluations, then combined into the bridging lemma
`premulChannel_eq_floor`. -/

theorem premulRows0 : checkRowsFrom 0 16 = true := rfl

theorem premulRows1 : checkRowsFrom 16 16 = true := rfl

theorem premulRows2 : checkRowsFrom 32 16 = true := rfl

theorem premulRows3 : checkRowsFrom 48 16 = true := rfl

theorem premulRows4 : checkRowsFrom 64 16 = true := rfl

theorem premulRows5 : checkRowsFrom 80 16 = true := rfl

theorem premulRows6 : checkRowsFrom 96 16 = true := rfl

theorem premulRows7 : checkRowsFrom 112 16 = true := rfl

theorem premulRows8 : checkRowsFrom 128 16 = true := rfl

theorem premulRows9 : checkRowsFrom 144 16 = true := rfl

theorem premulRows10 : checkRowsFrom 160 16 = true := rfl

theorem premulRows11 : checkRowsFrom 176 16 = true := rfl

theorem premulRows12 : checkRowsFrom 192 16 = true := rfl

theorem premulRows13 : checkRowsFrom 208 16 = true := rfl

theorem premulRows14 : checkRowsFrom 224 16 = true := rfl

theorem premulRows15 : checkRowsFrom 240 16 = true := rfl

/-- Soundness of one row check: every colour byte it covers passes. -/
theorem checkRow_sound (a : Nat) :
    ∀ n, checkRow a n = true → ∀ c, c < n →
      premulChannel a c = a * c / 255 := by
  intro n
  induction n with
  | zero => intro _ c hc; exact absurd hc (Nat.not_lt_zero c)
  | succ m ih =>
    intro h c hc
    simp only [checkRow, Bool.and_eq_true] at h
    rcases Nat.lt_succ_iff_lt_or_eq.mp hc with hlt | heq
    · exact ih h.2 c hlt
    · subst heq; exact Nat.eq_of_beq_eq_true h.1

/-- Soundness of a block of rows. -/
theorem checkRowsFrom_sound (lo : Nat) :
    ∀ n, checkRowsFrom lo n = true → ∀ k, k < n →
      checkRow (lo + k) 256 = true := by
  intro n
  induction n with
  | zero => intro _ k hk; exact absurd hk (Nat.not_lt_zero k)
  | succ m ih =>
    intro h k hk
    simp only [checkRowsFrom, Bool.and_eq_true] at h
    rcases Nat.lt_succ_iff_lt_or_eq.mp hk with hlt | heq
    · exact ih h.2 k hlt
    · subst heq; exact h.1

/-- Extending a verified prefix of rows by one verified block. -/
theorem checkRows_upto_extend (a b : Nat)
    (h1 : ∀ i, i < a → checkRow i 256 = true)
    (h2 : checkRowsFrom a b = true) :
    ∀ i, i < a + b → checkRow i 256 = true := by
  intro i hi
  by_cases hc : i < a
  · exact h1 i hc
  · have hlt : i - a < b := by omega
    have h := checkRowsFrom_sound a b h2 (i - a) hlt
    have heq : a + (i - a) = i := by omega
    rwa [heq] at h

/-- Every alpha byte has a fully verified row. -/
theorem checkRow_below : ∀ a, a < 256 → checkRow a 256 = true := by
  have h0 : ∀ i, i < 0 → checkRow i 256 = true :=
    fun i hi => absurd hi (Nat.not_lt_zero i)
  have h1 := checkRows_upto_extend 0 16 h0 premulRows0
  have h2 := checkRows_upto_extend 16 16 h1 premulRows1
  have h3 := checkRows_upto_extend 32 16 h2 premulRows2
  have h4 := checkRows_upto_extend 48 16 h3 premulRows3
  have h5 := checkRows_upto_extend 64 16 h4 premulRows4
  have h6 := checkRows_upto_extend 80 16 h5 premulRows5
  have h7 := checkRows_upto_extend 96 16 h6 premulRows6
  have h8 := checkRows_upto_extend 112 16 h7 premulRows7
  have h9 := checkRows_upto_extend 128 16 h8 premulRows8
  have h10 := checkRows_upto_extend 144 16 h9 premulRows9
  have h11 := checkRows_upto_extend 160 16 h10 premulRows10
  have h12 := checkRows_upto_extend 176 16 h11 premulRows11
  have h13 := checkRows_upto_extend 192 16 h12 premulRows12
  have h14 := checkRows_upto_extend 208 16 h13 premulRows13
  have h15 := checkRows_upto_extend 224 16 h14 premulRows14
  have h16 := checkRows_upto_extend 240 16 h15 premulRows15
  exact h16

/-- Bridging lemma: the binary32 premultiply of two bytes equals the
floored exact product. -/
theorem premulChannel_eq_floor : ∀ a, a < 256 → ∀ c, c < 256 →
    premulChannel a c = a * c / 255 :=
  fun a ha c hc => checkRow_sound a 256 (checkRow_below a ha) c hc

theorem premulChannel_le (a c : Nat) (ha : a < 256) (hc : c < 256) :
    premulChannel a c ≤ c := by
  rw [premulChannel_eq_floor a ha c hc]
  calc a * c / 255 ≤ 255 * c / 255 :=
        Nat.div_le_div_right (Nat.mul_le_mul_right c (by omega))
    _ = c := Nat.mul_div_cancel_left c (by norm_num)

/-! ### C2 -/

/-- C2 counterexample: at the pixel with A=1, R=128, G=0, B=0, the claimed
rounded output differs from what the code computes (round gives red 1,
the float32 computation truncates to 0). -/
theorem alpha_premultiply_not_roundSpec :
    alpha_premultiply_ARGB8888 0x01800000 ≠
      0x01800000 / 2 ^ 24 % 256 * 2 ^ 24
        + roundSpec (0x01800000 / 2 ^ 24 % 256) (0x01800000 / 2 ^ 16 % 256)
            * 2 ^ 16
        + roundSpec (0x01800000 / 2 ^ 24 % 256) (0x01800000 / 2 ^ 8 % 256)
            * 2 ^ 8
        + roundSpec (0x01800000 / 2 ^ 24 % 256) (0x01800000 % 256) := by
  decide

/-- C2 (amended): for every pixel, each output colour channel is the
floored (truncated) product `⌊A*C/255⌋`, not the rounded one; alpha is
unchanged. -/
theorem alpha_premultiply_floor (p : Nat) (hp : p < 2 ^ 32) :
    alpha_premultiply_ARGB8888 p =
      p / 2 ^ 24 % 256 * 2 ^ 24
        + p / 2 ^ 24 % 256 * (p / 2 ^ 16 % 256) / 255 * 2 ^ 16
        + p / 2 ^ 24 % 256 * (p / 2 ^ 8 % 256) / 255 * 2 ^ 8
        + p / 2 ^ 24 % 256 * (p % 256) / 255 := by
  have hA : p / 2 ^ 24 % 256 < 256 := Nat.mod_lt _ (by norm_num)
  have hR : p / 2 ^ 16 % 256 < 256 := Nat.mod_lt _ (by norm_num)
  have hG : p / 2 ^ 8 % 256 < 256 := Nat.mod_lt _ (by norm_num)
  have hB : p % 256 < 256 := Nat.mod_lt _ (by norm_num)
  unfold alpha_premultiply_ARGB8888
  rw [premulChannel_eq_floor _ hA _ hR, premulChannel_eq_floor _ hA _ hG,
    premulChannel_eq_floor _ hA _ hB]

/-- C2 witness. -/
theorem alpha_premultiply_floor_witness :
    0x01800000 < 2 ^ 32 ∧
      alpha_premultiply_ARGB8888 0x01800000 =
        0x01800000 / 2 ^ 24 % 256 * 2 ^ 24
          + 0x01800000 / 2 ^ 24 % 256 * (0x01800000 / 2 ^ 16 % 256) / 255
              * 2 ^ 16
          + 0x01800000 / 2 ^ 24 % 256 * (0x01800000 / 2 ^ 8 % 256) / 255
              * 2 ^ 8
          + 0x01800000 / 2 ^ 24 % 256 * (0x01800000 % 256) / 255 :=
  ⟨by norm_num, alpha_premultiply_floor 0x01800000 (by norm_num)⟩

/-! ### C7 -/

/-- C7: each output colour channel is at most the corresponding input
channel; zero alpha forces all colour channels to zero; alpha 255 leaves
the pixel unchanged. -/
theorem alpha_premultiply_le_zero_id (p : Nat) (hp : p < 2 ^ 32) :
    (alpha_premultiply_ARGB8888 p / 2 ^ 16 % 256 ≤ p / 2 ^ 16 % 256
      ∧ alpha_premultiply_ARGB8888 p / 2 ^ 8 % 256 ≤ p / 2 ^ 8 % 256
      ∧ alpha_premultiply_ARGB8888 p % 256 ≤ p % 256)
    ∧ (p / 2 ^ 24 % 256 = 0 →
        alpha_premultiply_ARGB8888 p / 2 ^ 16 % 256 = 0
          ∧ alpha_premultiply_ARGB8888 p / 2 ^ 8 % 256 = 0
          ∧ alpha_premultiply_ARGB8888 p % 256 = 0)
    ∧ (p / 2 ^ 24 % 256 = 255 → alpha_premultiply_ARGB8888 p = p) := by
  have hA : p / 2 ^ 24 % 256 < 256 := Nat.mod_lt _ (by norm_num)
  have hR : p / 2 ^ 16 % 256 < 256 := Nat.mod_lt _ (by norm_num)
  have hG : p / 2 ^ 8 % 256 < 256 := Nat.mod_lt _ (by norm_num)
  have hB : p % 256 < 256 := Nat.mod_lt _ (by norm_num)
  have eR := premulChannel_eq_floor _ hA _ hR
  have eG := premulChannel_eq_floor _ hA _ hG
  have eB := premulChannel_eq_floor _ hA _ hB
  have lR : premulChannel (p / 2 ^ 24 % 256) (p / 2 ^ 16 % 256) ≤ p / 2 ^ 16 % 256 :=
    premulChannel_le _ _ hA hR
  have lG : premulChannel (p / 2 ^ 24 % 256) (p / 2 ^ 8 % 256) ≤ p / 2 ^ 8 % 256 :=
    premulChannel_le _ _ hA hG
  have lB : premulChannel (p / 2 ^ 24 % 256) (p % 256) ≤ p % 256 :=
    premulChannel_le _ _ hA hB
  have hq : alpha_premultiply_ARGB8888 p =
      p / 2 ^ 24 % 256 * 2 ^ 24
        + premulChannel (p / 2 ^ 24 % 256) (p / 2 ^ 16 % 256) * 2 ^ 16
        + premulChannel (p / 2 ^ 24 % 256) (p / 2 ^ 8 % 256) * 2 ^ 8
        + premulChannel (p / 2 ^ 24 % 256) (p % 256) := rfl
  refine ⟨⟨?_, ?_, ?_⟩, ?_, ?_⟩
  · rw [hq]; omega
  · rw [hq]; omega
  · rw [hq]; omega
  · intro h0
    rw [h0] at eR eG eB
    simp only [Nat.zero_mul, Nat.zero_div] at eR eG eB
    rw [hq, h0, eR, eG, eB]
    omega
  · intro h255
    rw [h255] at eR eG eB
    rw [Nat.mul_div_cancel_left _ (by norm_num : 0 < 255)] at eR eG eB
    rw [hq, h255, eR, eG, eB]
    omega

/-- C7 witness. -/
theorem alpha_premultiply_le_zero_id_witness :
    0xFF102030 < 2 ^ 32 ∧
      ((alpha_premultiply_ARGB8888 0xFF102030 / 2 ^ 16 % 256
            ≤ 0xFF102030 / 2 ^ 16 % 256
        ∧ alpha_premultiply_ARGB8888 0xFF102030 / 2 ^ 8 % 256
            ≤ 0xFF102030 / 2 ^ 8 % 256
        ∧ alpha_premultiply_ARGB8888 0xFF102030 % 256 ≤ 0xFF102030 % 256)
      ∧ (0xFF102030 / 2 ^ 24 % 256 = 0 →
          alpha_premultiply_ARGB8888 0xFF102030 / 2 ^ 16 % 256 = 0
            ∧ alpha_premultiply_ARGB8888 0xFF102030 / 2 ^ 8 % 256 = 0
            ∧ alpha_premultiply_ARGB8888 0xFF102030 % 256 = 0)
      ∧ (0xFF102030 / 2 ^ 24 % 256 = 255 →
          alpha_premultiply_ARGB8888 0xFF102030 = 0xFF102030)) :=
  ⟨by norm_num, alpha_premultiply_le_zero_id 0xFF102030 (by norm_num)⟩

/-! ### C1 -/

/-- C1: in both present paths, a failed atomic commit releases nothing and
leaves the recorded front buffer unchanged; a release happens only after a
successful lock and a successful commit, and then the newly locked buffer
becomes the recorded front buffer. -/
theorem swap_release_discipline (env : SwapEnv) (st : WindowState) :
    ((KMSDRM_GLES_SwapWindow env st).commitCalls = 1 → env.commitRet ≠ 0 →
        (KMSDRM_GLES_SwapWindow env st).released = []
          ∧ (KMSDRM_GLES_SwapWindow env st).bo = st.bo)
    ∧ ((KMSDRM_GLES_SwapWindow env st).released ≠ [] →
        env.commitRet = 0
          ∧ (KMSDRM_GLES_SwapWindow env st).lockCalls = 1
          ∧ (KMSDRM_GLES_SwapWindow env st).commitCalls = 1
          ∧ (KMSDRM_GLES_SwapWindow env st).bo = env.lockedBo
          ∧ (KMSDRM_GLES_SwapWindow env st).released = st.bo.toList)
    ∧ ((KMSDRM_GLES_SwapWindowDB env st).commitCalls = 1 → env.commitRet ≠ 0 →
        (KMSDRM_GLES_SwapWindowDB env st).released = []
          ∧ (KMSDRM_GLES_SwapWindowDB env st).bo = st.bo)
    ∧ ((KMSDRM_GLES_SwapWindowDB env st).released ≠ [] →
        env.commitRet = 0
          ∧ (KMSDRM_GLES_SwapWindowDB env st).lockCalls = 1
          ∧ (KMSDRM_GLES_SwapWindowDB env st).commitCalls = 1
          ∧ (KMSDRM_GLES_SwapWindowDB env st).bo = env.lockedBo
          ∧ (KMSDRM_GLES_SwapWindowDB env st).released = st.bo.toList) := by
  obtain ⟨egl, lbo, fb, plane, conn, crtcA, outf, inf, fd, commit⟩ := env
  obtain ⟨bo0, nbo0⟩ := st
  unfold KMSDRM_GLES_SwapWindow KMSDRM_GLES_SwapWindowDB
  cases egl <;> rcases lbo with _ | nb <;> cases fb <;> try simp_all
  all_goals try (split_ifs <;> simp_all)

/-- C1 witness: with a failing commit the front buffer stays and nothing
is released. -/
theorem swap_release_discipline_witness :
    (KMSDRM_GLES_SwapWindow sampleEnvCommitFail sampleWin).released = []
      ∧ (KMSDRM_GLES_SwapWindow sampleEnvCommitFail sampleWin).bo
          = sampleWin.bo :=
  (swap_release_discipline sampleEnvCommitFail sampleWin).1 (by decide)
    (by decide)

/-! ### C3 -/

/-- C3: in the async path a failed EGL buffer swap aborts the frame at
once: error return, no atomic commit, no lock, no buffer released, window
state unchanged. -/
theorem swapWindow_eglFail_aborts (env : SwapEnv) (st : WindowState)
    (h : env.eglSwapOk = false) :
    KMSDRM_GLES_SwapWindow env st =
      { ret := -1, bo := st.bo, nextBo := st.nextBo, commitCalls := 0,
        lockCalls := 0, released := [], errorReported := true } := by
  unfold KMSDRM_GLES_SwapWindow
  rw [h]
  rfl

/-- C3 witness. -/
theorem swapWindow_eglFail_aborts_witness :
    KMSDRM_GLES_SwapWindow sampleEnvEglFail sampleWin =
      { ret := -1, bo := sampleWin.bo, nextBo := sampleWin.nextBo,
        commitCalls := 0, lockCalls := 0, released := [],
        errorReported := true } :=
  swapWindow_eglFail_aborts sampleEnvEglFail sampleWin (by decide)

/-! ### C4 -/

/-- C4 counterexample: in the double-buffer path a failed EGL swap does
not abort: the atomic commit is still issued and the call even returns
success. -/
theorem swapWindowDB_eglFail_commits_cex :
    (KMSDRM_GLES_SwapWindowDB sampleEnvEglFail sampleWin).commitCalls = 1
      ∧ (KMSDRM_GLES_SwapWindowDB sampleEnvEglFail sampleWin).ret = 0 := by
  decide

/-- C4 (amended): in the double-buffer path a failed EGL swap is reported
but the frame is not aborted: the front-buffer lock is still attempted,
and whenever the lock, the framebuffer lookup and the plane props succeed
the atomic commit is still issued. -/
theorem swapWindowDB_eglFail_continues (env : SwapEnv) (st : WindowState)
    (h : env.eglSwapOk = false) :
    (KMSDRM_GLES_SwapWindowDB env st).errorReported = true
      ∧ (KMSDRM_GLES_SwapWindowDB env st).lockCalls = 1
      ∧ (env.lockedBo.isSome = true → env.fbOk = true →
          env.planePropsRet = 0 →
          (KMSDRM_GLES_SwapWindowDB env st).commitCalls = 1) := by
  obtain ⟨egl, lbo, fb, plane, conn, crtcA, outf, inf, fd, commit⟩ := env
  obtain ⟨bo0, nbo0⟩ := st
  unfold KMSDRM_GLES_SwapWindowDB
  cases egl <;> rcases lbo with _ | nb <;> cases fb <;>
    by_cases hp : plane = 0 <;>
    by_cases h6 : commit = 0 <;>
    simp_all

/-- C4 witness. -/
theorem swapWindowDB_eglFail_continues_witness :
    (KMSDRM_GLES_SwapWindowDB sampleEnvEglFail sampleWin).errorReported = true
      ∧ (KMSDRM_GLES_SwapWindowDB sampleEnvEglFail sampleWin).lockCalls = 1
      ∧ (sampleEnvEglFail.lockedBo.isSome = true →
          sampleEnvEglFail.fbOk = true → sampleEnvEglFail.planePropsRet = 0 →
          (KMSDRM_GLES_SwapWindowDB sampleEnvEglFail sampleWin).commitCalls
            = 1) :=
  swapWindowDB_eglFail_continues sampleEnvEglFail sampleWin (by decide)

/-! ### C5 -/

/-- C5: the copy loop indexes the staging buffer with the cursor width,
not the BO stride.  With cursor width 64 and BO stride 512, pixel (1,0)
lands at byte 256 where the spec prescribes 512; and with a 128x128
surface over a 64-high staging buffer of stride 256, the final write ends
at byte 33024, past the buffer end 16384. -/
theorem createCursor_copy_stride_bug :
    copyDestOffset 64 1 0 = 256
      ∧ specDestOffset 512 1 0 = 512
      ∧ copyDestOffset 64 1 0 ≠ specDestOffset 512 1 0
      ∧ copySrcIndex 128 127 127 = 16383
      ∧ copyDestOffset 64 127 127 + 4 = 33024
      ∧ 256 * 64 < 33024 := by
  decide

/-! ### C6 -/

/-- C6: the usable-size check tests the width twice and never the height,
so a driver-reported usable height of zero is not rejected: the call
reports no error and returns a cursor with height 0, while a zero usable
width is rejected as the claim describes. -/
theorem createCursor_zero_height_not_rejected :
    (KMSDRM_CreateCursor sampleCursorEnvH0).cursor = some (64, 0)
      ∧ (KMSDRM_CreateCursor sampleCursorEnvH0).errorReported = false
      ∧ (KMSDRM_CreateCursor
            { sampleCursorEnvH0 with capW := some 0 }).cursor = none := by
  decide

/-! ### C8 -/

/-- C8 counterexample: hiding while the current cursor is already hidden
is not a no-op success; with no display CRTC available the call returns an
error. -/
theorem showCursor_hide_hidden_error_cex :
    (KMSDRM_ShowCursor { setCursorRet := 0 } sampleHiddenNoDisplay none).ret
      ≠ 0 := by
  decide

/-- C8 (amended): hiding an already-hidden cursor leaves the cursor data
unchanged but falls through to the focused display: success exactly when a
nonzero display CRTC is known and the drm call succeeds.  Showing the same
cursor twice on the same display CRTC yields the same owning-controller
value both times. -/
theorem showCursor_hidden_fallthrough_show_idem (env : ShowEnv)
    (st : MouseState) (cd : CursorData) (dc : Nat) :
    (st.mousePresent = true → st.curCursor = some (some cd) →
        cd.crtcId = 0 →
      (KMSDRM_ShowCursor env st none).curCursorAfter = st.curCursor
        ∧ ((KMSDRM_ShowCursor env st none).ret = 0 ↔
            ∃ c, st.focusDispCrtc = some c ∧ c ≠ 0 ∧ env.setCursorRet = 0))
    ∧ (st.mousePresent = true → st.focusDispCrtc = some dc →
        cd.hasBo = true → env.setCursorRet = 0 →
      (KMSDRM_ShowCursor env st (some (some cd))).argAfter
          = some (some { cd with crtcId := dc })
        ∧ (KMSDRM_ShowCursor env st
              ((KMSDRM_ShowCursor env st (some (some cd))).argAfter)).argAfter
          = some (some { cd with crtcId := dc })) := by
  obtain ⟨sret⟩ := env
  obtain ⟨mp, cc, fdc⟩ := st
  obtain ⟨cid, hbo, hx, hy⟩ := cd
  unfold KMSDRM_ShowCursor KMSDRM_ShowCursor.hideGlobal
  cases mp <;> rcases fdc with _ | c <;>
    by_cases hs : sret = 0 <;>
    rcases cc with _ | ⟨_ | ⟨ccid, cbo, cx, cy⟩⟩ <;>
    by_cases hb : hbo = true <;>
    simp_all
  all_goals (intros; subst_vars; split_ifs <;> simp_all)

/-- C8 witness. -/
theorem showCursor_hidden_fallthrough_show_idem_witness :
    ((KMSDRM_ShowCursor { setCursorRet := 0 } sampleHiddenWithDisplay
          none).curCursorAfter = sampleHiddenWithDisplay.curCursor
      ∧ ((KMSDRM_ShowCursor { setCursorRet := 0 } sampleHiddenWithDisplay
            none).ret = 0 ↔
          ∃ c, sampleHiddenWithDisplay.focusDispCrtc = some c ∧ c ≠ 0
            ∧ ({ setCursorRet := 0 } : ShowEnv).setCursorRet = 0))
    ∧ ((KMSDRM_ShowCursor { setCursorRet := 0 } sampleHiddenWithDisplay
          (some (some sampleHiddenCursor))).argAfter
        = some (some { sampleHiddenCursor with crtcId := 7 })
      ∧ (KMSDRM_ShowCursor { setCursorRet := 0 } sampleHiddenWithDisplay
            ((KMSDRM_ShowCursor { setCursorRet := 0 } sampleHiddenWithDisplay
              (some (some sampleHiddenCursor))).argAfter)).argAfter
        = some (some { sampleHiddenCursor with crtcId := 7 })) :=
  ⟨(showCursor_hidden_fallthrough_show_idem { setCursorRet := 0 }
      sampleHiddenWithDisplay sampleHiddenCursor 7).1 rfl rfl rfl,
   (showCursor_hidden_fallthrough_show_idem { setCursorRet := 0 }
      sampleHiddenWithDisplay sampleHiddenCursor 7).2 rfl rfl rfl rfl⟩

/-! ### C9 -/

/-- C9 counterexample: with no current cursor the warp neither updates the
tracked position nor succeeds. -/
theorem warpMouseGlobal_no_cursor_cex :
    (KMSDRM_WarpMouseGlobal { moveRet := 0 } 5 6 sampleWarpNoCursor).state.pos
        ≠ (5, 6)
      ∧ (KMSDRM_WarpMouseGlobal { moveRet := 0 } 5 6
          sampleWarpNoCursor).ret = -1 := by
  decide

/-- C9 (amended): when a mouse with a current cursor carrying driver data
exists, the warp updates the tracked position to (x, y), issues exactly
one position-only hardware move iff the cursor BO exists and the cursor is
shown (returning the status of that drm move call), and returns the error
-1 when the BO is missing or the cursor is not shown; when there is no
mouse or no current cursor with driver data it returns an error and
changes nothing.  A window warp is forwarded unchanged to the global warp,
ignoring the window. -/
theorem warpMouse_spec (w : Nat) (env : WarpEnv) (x y : Int)
    (st : WarpState) (cd : CursorData) :
    (st.mousePresent = true → st.curCursor = some (some cd) →
      (KMSDRM_WarpMouseGlobal env x y st).state.pos = (x, y)
        ∧ ((KMSDRM_WarpMouseGlobal env x y st).moveCalls = 1 ↔
            cd.hasBo = true ∧ cd.crtcId ≠ 0)
        ∧ (cd.hasBo = true → cd.crtcId ≠ 0 →
            (KMSDRM_WarpMouseGlobal env x y st).ret = env.moveRet)
        ∧ (¬(cd.hasBo = true ∧ cd.crtcId ≠ 0) →
            (KMSDRM_WarpMouseGlobal env x y st).ret = -1))
    ∧ (st.mousePresent = false ∨ st.curCursor = none
          ∨ st.curCursor = some none →
        (KMSDRM_WarpMouseGlobal env x y st).state = st
          ∧ (KMSDRM_WarpMouseGlobal env x y st).ret = -1
          ∧ (KMSDRM_WarpMouseGlobal env x y st).moveCalls = 0)
    ∧ KMSDRM_WarpMouse w env x y st
        = ((KMSDRM_WarpMouseGlobal env x y st).state,
            (KMSDRM_WarpMouseGlobal env x y st).moveCalls) := by
  obtain ⟨mret⟩ := env
  obtain ⟨mp, cc, px⟩ := st
  unfold KMSDRM_WarpMouse KMSDRM_WarpMouseGlobal SDL_SendMouseMotion
  cases mp <;> rcases cc with _ | ⟨_ | ⟨ccid, cbo, cx, cy⟩⟩ <;>
    simp_all
  all_goals (intros; subst_vars; split_ifs <;> simp_all)

/-- C9 witness. -/
theorem warpMouse_spec_witness :
    ((KMSDRM_WarpMouseGlobal { moveRet := 0 } 5 6 sampleWarpShown).state.pos
        = (5, 6)
      ∧ ((KMSDRM_WarpMouseGlobal { moveRet := 0 } 5 6
            sampleWarpShown).moveCalls = 1 ↔
          ({ crtcId := 9, hasBo := true, hotX := 0, hotY := 0 }
              : CursorData).hasBo = true
            ∧ ({ crtcId := 9, hasBo := true, hotX := 0, hotY := 0 }
                : CursorData).crtcId ≠ 0)
      ∧ (({ crtcId := 9, hasBo := true, hotX := 0, hotY := 0 }
              : CursorData).hasBo = true →
          ({ crtcId := 9, hasBo := true, hotX := 0, hotY := 0 }
              : CursorData).crtcId ≠ 0 →
          (KMSDRM_WarpMouseGlobal { moveRet := 0 } 5 6 sampleWarpShown).ret
            = ({ moveRet := 0 } : WarpEnv).moveRet)
      ∧ (¬(({ crtcId := 9, hasBo := true, hotX := 0, hotY := 0 }
              : CursorData).hasBo = true
            ∧ ({ crtcId := 9, hasBo := true, hotX := 0, hotY := 0 }
                : CursorData).crtcId ≠ 0) →
          (KMSDRM_WarpMouseGlobal { moveRet := 0 } 5 6 sampleWarpShown).ret
            = -1)) :=
  (warpMouse_spec 0 { moveRet := 0 } 5 6 sampleWarpShown
      { crtcId := 9, hasBo := true, hotX := 0, hotY := 0 }).1 rfl rfl

/-! ### C10 -/

/-- C10: the swap interval is stored with a success return exactly when
EGL is initialized and the interval is 0 or 1; every other call errors and
leaves the state unchanged. -/
theorem setSwapInterval_spec (i : Int) (st : GLState) :
    ((KMSDRM_GLES_SetSwapInterval i st).1 = 0 ↔
        st.eglData ≠ none ∧ (i = 0 ∨ i = 1))
      ∧ ((KMSDRM_GLES_SetSwapInterval i st).1 = 0 →
          (KMSDRM_GLES_SetSwapInterval i st).2.eglData = some i)
      ∧ ((KMSDRM_GLES_SetSwapInterval i st).1 ≠ 0 →
          (KMSDRM_GLES_SetSwapInterval i st).2 = st) := by
  obtain ⟨ed⟩ := st
  unfold KMSDRM_GLES_SetSwapInterval
  rcases ed with _ | v <;> by_cases h : i = 0 ∨ i = 1 <;> simp_all

/-- C10 witness. -/
theorem setSwapInterval_spec_witness :
    ((KMSDRM_GLES_SetSwapInterval 0 { eglData := some 1 }).1 = 0 ↔
        ({ eglData := some 1 } : GLState).eglData ≠ none
          ∧ ((0 : Int) = 0 ∨ (0 : Int) = 1))
      ∧ ((KMSDRM_GLES_SetSwapInterval 0 { eglData := some 1 }).1 = 0 →
          (KMSDRM_GLES_SetSwapInterval 0
              { eglData := some 1 }).2.eglData = some 0)
      ∧ ((KMSDRM_GLES_SetSwapInterval 0 { eglData := some 1 }).1 ≠ 0 →
          (KMSDRM_GLES_SetSwapInterval 0 { eglData := some 1 }).2
            = { eglData := some 1 }) :=
  setSwapInterval_spec 0 { eglData := some 1 }

end KMSDRM
